import Mathlib

/-!
A verification development for the media-asset normalization and validation
pipeline (image_handling.py and video_handling.py of the repository).

Modelling conventions:
* Python byte strings are `List Nat`; machine integers are `Int`/`Nat`.
* Python floats are modelled as exact rationals (`ℚ`).  Every float that a
  theorem below evaluates is exactly representable in binary floating point
  (sums of small integers divided by 64, products divided by 10^6 at the
  concrete inputs used), so the rational model agrees with CPython there.
* Fallible Python code returns `Except PyErr _`; `raise` is `.error`,
  `try/except` is a `match` on the result, `try/finally` is performed by
  sequencing the cleanup on both branches.
* External libraries (Pillow, moviepy, ffprobe, hashlib, base64, the file
  system) are modelled as record fields of an environment structure; the
  repository functions themselves are translated as Lean definitions over
  those environments.
* The pool of temp files on backing storage is an explicit `List Nat` of
  file names threaded through the video operations.
-/

/-- Python truthiness of an optional string argument: `None` and `""` are
falsy, every other string is truthy. -/
def pyTruthyStr : Option String → Bool
  | none => false
  | some s => s ≠ ""

/-- Python truthiness of an optional int argument: `None` and `0` are falsy. -/
def pyTruthyInt : Option Int → Bool
  | none => false
  | some v => v ≠ 0

/-- Python `a or b` on optional strings: the first truthy operand wins. -/
def pyOrStr (a b : Option String) : Option String :=
  if pyTruthyStr a then a else b

/-- Python `str.upper()` (ASCII data only in this pipeline). -/
def strUpper (s : String) : String :=
  String.mk (s.data.map Char.toUpper)

/-- Python `str.lower()` (ASCII data only in this pipeline). -/
def strLower (s : String) : String :=
  String.mk (s.data.map Char.toLower)

/-- Last element of a list of strings, empty string when the list is empty. -/
def lastPart : List String → String
  | [] => ""
  | [x] => x
  | _ :: x :: xs => lastPart (x :: xs)

/-- Char-list prefix test (structural recursion). -/
def charsPrefix : List Char → List Char → Bool
  | x :: xs, y :: ys => x = y && charsPrefix xs ys
  | [], _ => true
  | _, [] => false

/-- Python `s.startswith(pre)`. -/
def pyStartsWith (s pre : String) : Bool := charsPrefix pre.data s.data

/-- Split a char list at every occurrence of `c` (structural recursion). -/
def splitAllChar (c : Char) : List Char → List (List Char)
  | [] => [[]]
  | x :: xs =>
    let r := splitAllChar c xs
    if x = c then [] :: r
    else
      match r with
      | [] => [[x]]
      | h :: t => (x :: h) :: t

/-- Python `s.split(sep)` for a one-character separator. -/
def pySplitChar (s : String) (c : Char) : List String :=
  (splitAllChar c s.data).map String.mk

/-- Split a char list at the first occurrence of `c`, when present. -/
def splitFirstChar (c : Char) : List Char → Option (List Char × List Char)
  | [] => none
  | x :: xs =>
    if x = c then some ([], xs)
    else (splitFirstChar c xs).map (fun p => (x :: p.1, p.2))

/-- Python `s.split(",", 1)[1]` preceded by the `startswith("data:")` test:
strips a data-URL prefix.  When the string starts with `data:` but holds no
comma, indexing `[1]` raises (IndexError). -/
def stripDataUrl (s : String) : Except String String :=
  if pyStartsWith s "data:" then
    match splitFirstChar ',' s.data with
    | none => Except.error "IndexError"
    | some p => Except.ok (String.mk p.2)
  else Except.ok s

/-- Lexicographic Bool comparison of char lists by code point, as Python
compares strings. -/
def charListLe : List Char → List Char → Bool
  | x :: xs, y :: ys =>
      if x = y then charListLe xs ys
      else decide (x.toNat < y.toNat)
  | [], _ => true
  | _, [] => false

/-- Bool string comparison by code point, as Python `<=` on strings. -/
def strLeBool (a b : String) : Bool := charListLe a.data b.data

/-- Insertion into a sorted list of strings. -/
def insertSortedStr (s : String) : List String → List String
  | [] => [s]
  | x :: xs => if strLeBool s x then s :: x :: xs else x :: insertSortedStr s xs

/-- Python `sorted` on a list of strings (insertion sort, code-point order). -/
def sortStrings (l : List String) : List String :=
  l.foldr insertSortedStr []

/-- Python `str(list_of_strings)`, quoting each item. -/
def pyStrListRepr (l : List String) : String :=
  "[" ++ String.intercalate ", " (l.map (fun s => "\x27" ++ s ++ "\x27")) ++ "]"

/-- One lowercase hexadecimal digit, as Python hex formatting produces
(codepoint 48 is the zero digit, 97 is the letter a). -/
def hexDigitChar (n : Nat) : Char :=
  if n < 10 then Char.ofNat (48 + n) else Char.ofNat (87 + n)

/-- Fuel-driven base-16 digit expansion (structural recursion so that the
kernel can evaluate it; the fuel never runs out when it starts above the
argument). -/
def natToHexAux : Nat → Nat → List Char
  | 0, _ => []
  | fuel + 1, n =>
    if n < 16 then [hexDigitChar n]
    else natToHexAux fuel (n / 16) ++ [hexDigitChar (n % 16)]

/-- The digits of `n` in base 16, most significant first (at least one digit),
as Python `"%x" % n` produces. -/
def natToHexList (n : Nat) : List Char := natToHexAux (n + 1) n

/-- Python `format(n, "0{w}x")`: lowercase hex, left padded with zeros to
width `w`. -/
def pyHexPad (n w : Nat) : String :=
  String.mk (List.replicate (w - (natToHexList n).length) '0' ++ natToHexList n)

/-- Value of one lowercase hexadecimal digit character. -/
def hexCharVal (c : Char) : Nat :=
  if c.toNat ≤ 57 then c.toNat - 48 else c.toNat - 87

/-- Value denoted by a lowercase hexadecimal string (most significant digit
first). -/
def hexValue (s : String) : Nat :=
  s.data.foldl (fun a c => 16 * a + hexCharVal c) 0

/-- The sixteen lowercase hexadecimal digit characters. -/
def hexAlphabet : List Char := "0123456789abcdef".data

/-- Round a rational to the nearest integer, ties to even — the rounding CPython
uses when formatting floats. -/
def roundHalfEven (q : ℚ) : ℤ :=
  let fl := ⌊q⌋
  let fr := q - (fl : ℚ)
  if fr > 1/2 then fl + 1
  else if fr < 1/2 then fl
  else if fl % 2 = 0 then fl else fl + 1

/-- Python `f"{x:.2f}"` for a nonnegative value (floats modelled as exact
rationals). -/
def fmtFixed2 (q : ℚ) : String :=
  let n := (roundHalfEven (q * 100)).toNat
  toString (n / 100) ++ "." ++ (if n % 100 < 10 then "0" else "") ++ toString (n % 100)

/-- Python `f"{x}"` for a float holding an integral value (`4.0` prints as
"4.0").  Every ceiling a theorem below formats is integral; non-integral
values fall back to the rational printer. -/
def pyFloatRepr (q : ℚ) : String :=
  if q.den = 1 then toString q.num ++ ".0" else toString q

section ImageModel

/-- Python exception values, by class. -/
inductive PyErr where
  | valueError (msg : String)
  | osError (msg : String)
  | runtimeError (msg : String)
  | typeError (msg : String)
  | other (msg : String)
deriving DecidableEq, Repr

/-- A raw byte buffer. -/
abbrev PyBytes := List Nat

/-- A PIL image object: pixel-buffer metadata plus the attributes the
pipeline reads.  `format` is the container format recorded by `Image.open`
(`none` for images created by the library itself).  `exifOrientation` models
the embedded EXIF Orientation tag (1 = upright / absent). -/
structure PILImage where
  width : Nat
  height : Nat
  mode : String
  format : Option String
  exifOrientation : Nat
  exif : List (String × String)
deriving DecidableEq, Repr

/-- The external world of image_handling.py: Pillow primitives, hashing,
base64 and the file system, modelled as an environment.  `lumaLen` is the
Pillow guarantee that resizing to an n-by-n grid yields n*n pixels. -/
structure ImgEnv where
  imgOpen : PyBytes → Except PyErr PILImage
  save : PILImage → String → Option Int → Bool → Except PyErr PyBytes
  lumaResize : PILImage → Nat → List Nat
  lumaLen : ∀ img n, (lumaResize img n).length = n * n
  md5hex : PyBytes → String
  b64encode : PyBytes → String
  b64decode : String → Except PyErr PyBytes
  fitOp : PILImage → Int → Int → Except PyErr PILImage
  thumbnailOp : PILImage → Int → Int → Except PyErr PILImage
  blurOp : PILImage → Nat → PILImage
  cropOp : PILImage → Int → Int → Int → Int → Except PyErr PILImage
  newCanvas : String → Int → Int → Int × Int × Int → Except PyErr PILImage
  pasteCenter : PILImage → PILImage → Int → Int → Except PyErr PILImage
  readFile : String → Except PyErr PyBytes
  hasTess : Bool
  ocrRun : PILImage → String → Except PyErr String

/-- PIL `img.convert(mode)`: a converted copy.  Per the documented Pillow
semantics, images created by the library itself (rather than by the reader)
carry `format = None`. -/
def convertMode (img : PILImage) (m : String) : PILImage :=
  { img with mode := m, format := none }

/-- Source `_bytes_to_image`: `Image.open(io.BytesIO(b)).convert("RGBA")`. -/
def bytesToImage (env : ImgEnv) (b : PyBytes) : Except PyErr PILImage :=
  (env.imgOpen b).map (fun i => convertMode i "RGBA")

/-- Source `_safe_format`: `fmt.upper() if fmt else None`. -/
def safeFormat (f : Option String) : Option String :=
  if pyTruthyStr f then some (strUpper (f.getD "")) else none

/-- Source `_calc_megapixels`: `(w * h) / 1_000_000.0`. -/
def calcMegapixels (w h : Nat) : ℚ :=
  ((w * h : Nat) : ℚ) / 1000000

/-- Source `_auto_orient`, i.e. `ImageOps.exif_transpose`: applies the
transpose named by the EXIF Orientation tag (values 2..8; 5..8 swap the
axes), clearing the tag; the result is a library-created image (format
`None`).  Without a tag the image is returned unchanged.  The color mode is
preserved in every case. -/
def autoOrient (img : PILImage) : PILImage :=
  if 2 ≤ img.exifOrientation ∧ img.exifOrientation ≤ 8 then
    { img with
      width := if 5 ≤ img.exifOrientation then img.height else img.width
      height := if 5 ≤ img.exifOrientation then img.width else img.height
      format := none
      exifOrientation := 1 }
  else img

/-- Source `_strip_metadata`: a fresh image rebuilt from raw pixel data —
same mode and size, no format, no EXIF. -/
def stripMetadata (img : PILImage) : PILImage :=
  { img with format := none, exif := [], exifOrientation := 1 }

/-- The white-background flattening `_img_to_bytes` performs before a JPEG
save of an image with alpha: a fresh RGB canvas with the image pasted on. -/
def flattenWhite (img : PILImage) : PILImage :=
  { width := img.width, height := img.height, mode := "RGB",
    format := none, exifOrientation := 1, exif := [] }

/-- Source `_img_to_bytes`: resolve the output format, branch on JPEG
(flatten alpha or convert to RGB, clamp quality to 95, optimize) versus the
rest (clamp quality to 100 for the formats that take it), then save. -/
def imgToBytes (env : ImgEnv) (img : PILImage) (fmt : Option String)
    (quality : Option Int) (keepAlpha : Bool) : Except PyErr PyBytes :=
  let f := strUpper ((pyOrStr fmt (pyOrStr img.format (some "PNG"))).getD "PNG")
  if f = "JPEG" ∨ f = "JPG" then
    let toSave :=
      if keepAlpha ∧ (img.mode = "RGBA" ∨ img.mode = "LA") then flattenWhite img
      else convertMode img "RGB"
    env.save toSave "JPEG" (quality.map (fun q => max 1 (min q 95))) true
  else
    let q :=
      if f = "WEBP" ∨ f = "JP2" ∨ f = "JPEG2000" then
        quality.map (fun q => max 1 (min q 100))
      else none
    env.save img f q false

/-- Source `_ahash`: grayscale, resize to `hashSize` square with LANCZOS
(the abstracted `lumaResize`), compare each pixel to the mean, join the bits
most-significant-first and format as zero-padded hex of width
`hashSize * hashSize / 4`. -/
def ahash (env : ImgEnv) (img : PILImage) (hashSize : Nat := 8) : String :=
  let pixels := env.lumaResize img hashSize
  let avg : ℚ := ((pixels.sum : Nat) : ℚ) / ((pixels.length : Nat) : ℚ)
  let bits : List Char := pixels.map (fun p => if ((p : Nat) : ℚ) > avg then '1' else '0')
  let v : Nat := bits.foldl (fun a c => 2 * a + (if c = '1' then 1 else 0)) 0
  pyHexPad v ((hashSize * hashSize) / 4)

/-- Source `_placeholder_data_url`: 16px thumbnail, slight blur, PNG bytes,
base64 data URL. -/
def placeholderDataUrl (env : ImgEnv) (img : PILImage)
    (size : Nat := 16) (blurRadius : Nat := 1) : Except PyErr String := do
  let tiny ← env.thumbnailOp img (size : Int) (size : Int)
  let tiny := env.blurOp tiny blurRadius
  let b ← imgToBytes env tiny (some "PNG") none true
  pure ("data:image/png;base64," ++ env.b64encode b)

/-- Source dataclass `ImageInfo`. -/
structure ImageInfo where
  width : Nat
  height : Nat
  mode : String
  format : Option String
  megapixels : ℚ
  md5 : String
  ahash : String
  exif : List (String × String)
deriving DecidableEq, Repr

/-- The `Union[bytes, Image.Image]` input the public image functions take. -/
inductive ImgData where
  | img (i : PILImage)
  | bytes (b : PyBytes)

/-- The isinstance dispatch shared by the public image functions. -/
def getImg (env : ImgEnv) : ImgData → Except PyErr PILImage
  | .img i => .ok i
  | .bytes b => bytesToImage env b

/-- Source `inspect_image`: decode if needed, auto-orient, then collect
dimensions, megapixels, the MD5 of a canonical PNG re-encode, the perceptual
hash and the EXIF mapping. -/
def inspectImage (env : ImgEnv) (d : ImgData) : Except PyErr ImageInfo := do
  let img ← getImg env d
  let img := autoOrient img
  let raw ← imgToBytes env img (some "PNG") none true
  pure { width := img.width, height := img.height, mode := img.mode,
         format := safeFormat img.format,
         megapixels := calcMegapixels img.width img.height,
         md5 := env.md5hex raw, ahash := ahash env img, exif := img.exif }

/-- Python `str(exception)` for the error classes modelled here. -/
def pyErrStr : PyErr → String
  | .valueError m => m
  | .osError m => m
  | .runtimeError m => m
  | .typeError m => m
  | .other m => m

/-- Source `validate_image` return dict `{ok, reasons, info}`. -/
structure ValidationOut where
  ok : Bool
  reasons : List String
  info : ImageInfo
deriving DecidableEq, Repr

/-- The format-violation reason of `validate_image`:
`f"format {info.format} not in allowed {sorted(allowed)}"`. -/
def formatReasonStr (fmt : String) (allowedSorted : List String) : String :=
  "format " ++ (fmt ++ (" not in allowed " ++ pyStrListRepr allowedSorted))

/-- The size-violation reason of `validate_image`:
`f"image too large: {mp:.2f} MP > {max} MP"`. -/
def sizeReasonStr (mp maxMp : ℚ) : String :=
  "image too large: " ++ (fmtFixed2 mp ++ (" MP > " ++ (pyFloatRepr maxMp ++ " MP")))

/-- Source `validate_image`: inspect, then append one reason per violated
rule — encoded format not in the allow-list (default PNG/JPEG/JPG/WEBP/GIF,
deliberately no HEIC), megapixels strictly above the ceiling; the format
check is skipped when the inspected format attribute is falsy. `ok` iff no
reasons were collected. -/
def validateImage (env : ImgEnv) (d : ImgData)
    (allowedFormats : Option (List String)) (maxMegapixels : Option ℚ) :
    Except PyErr ValidationOut := do
  let allowed := (allowedFormats.getD ["PNG", "JPEG", "JPG", "WEBP", "GIF"]).map strUpper
  let info ← inspectImage env d
  let rs1 : List String :=
    if pyTruthyStr info.format ∧ strUpper (info.format.getD "") ∉ allowed then
      [formatReasonStr (info.format.getD "") (sortStrings allowed)]
    else []
  let rs2 : List String :=
    match maxMegapixels with
    | some m => if info.megapixels > m then [sizeReasonStr info.megapixels m] else []
    | none => []
  let reasons := rs1 ++ rs2
  pure { ok := reasons.isEmpty, reasons := reasons, info := info }

/-- Source `transform_image` return dict. -/
structure TransformOut where
  image_b64 : String
  data_url : String
  format : String
  width : Nat
  height : Nat
deriving DecidableEq, Repr

/-- Source `transform_image`: decode and orient, apply the named operation
(the geometric ones demand truthy width/height; center-crop additionally
rejects a crop box exceeding the source), then re-encode.  Python floor
division `//` is `Int.fdiv`. -/
def transformImage (env : ImgEnv) (d : ImgData) (op : String)
    (width height : Option Int) (fmt : Option String) (quality : Option Int)
    (keepAlpha : Bool) (background : Option (Int × Int × Int)) :
    Except PyErr TransformOut := do
  let img0 ← getImg env d
  let img0 := autoOrient img0
  let img1 := if op = "strip_metadata" then stripMetadata img0 else img0
  let img ←
    if op = "resize_contain" ∨ op = "resize_cover" ∨ op = "crop_center" then
      if ¬ pyTruthyInt width ∨ ¬ pyTruthyInt height then
        Except.error (.valueError "width and height are required for this op")
      else
        let w := width.getD 0
        let h := height.getD 0
        if op = "resize_contain" then
          match background with
          | some bg => do
              let mode := if img1.mode = "RGBA" ∨ keepAlpha then "RGBA" else "RGB"
              let canvas ← env.newCanvas mode w h bg
              let tmp ← env.thumbnailOp img1 w h
              let x := (w - (tmp.width : Int)).fdiv 2
              let y := (h - (tmp.height : Int)).fdiv 2
              env.pasteCenter canvas tmp x y
          | none => env.thumbnailOp img1 w h
        else if op = "resize_cover" then
          env.fitOp img1 w h
        else
          if w > (img1.width : Int) ∨ h > (img1.height : Int) then
            Except.error (.valueError "crop size larger than image")
          else
            let left := ((img1.width : Int) - w).fdiv 2
            let top := ((img1.height : Int) - h).fdiv 2
            env.cropOp img1 left top (left + w) (top + h)
    else pure img1
  let outFmt := strUpper ((pyOrStr fmt (pyOrStr img.format (some "PNG"))).getD "PNG")
  let outBytes ← imgToBytes env img (some outFmt) quality keepAlpha
  let b64 := env.b64encode outBytes
  pure { image_b64 := b64,
         data_url := "data:image/" ++ (strLower outFmt ++ (";base64," ++ b64)),
         format := outFmt, width := img.width, height := img.height }

/-- One thumbnail descriptor of `thumbnail_set`. -/
structure ThumbItem where
  width : Nat
  height : Nat
  format : String
  data_url : String
deriving DecidableEq, Repr

/-- Source `thumbnail_set` return dict. -/
structure ThumbOut where
  items : List ThumbItem
  placeholder_data_url : String
deriving DecidableEq, Repr

/-- One iteration of the `thumbnail_set` loop: cover-fit to the requested
size, encode, and report the requested width/height. -/
def thumbStep (env : ImgEnv) (base : PILImage) (fmt : String) (quality : Int)
    (wh : Nat × Nat) : Except PyErr ThumbItem := do
  let tmp ← env.fitOp base (wh.1 : Int) (wh.2 : Int)
  let b ← imgToBytes env tmp (some fmt) (some quality) true
  pure { width := wh.1, height := wh.2, format := strUpper fmt,
         data_url := "data:image/" ++ (strLower fmt ++ (";base64," ++ env.b64encode b)) }

/-- The `thumbnail_set` loop over the requested sizes; the first failing
size aborts the whole computation. -/
def thumbItems (env : ImgEnv) (base : PILImage) (fmt : String) (quality : Int) :
    List (Nat × Nat) → Except PyErr (List ThumbItem)
  | [] => .ok []
  | wh :: rest => do
      let it ← thumbStep env base fmt quality wh
      let tail ← thumbItems env base fmt quality rest
      pure (it :: tail)

/-- The default sizes of `thumbnail_set`. -/
def defaultThumbSizes : List (Nat × Nat) := [(64, 64), (128, 128), (256, 256), (512, 512)]

/-- Source `thumbnail_set`: decode and orient once, build one item per
requested size, then the blurred 16px placeholder. -/
def thumbnailSet (env : ImgEnv) (d : ImgData)
    (sizes : List (Nat × Nat) := defaultThumbSizes)
    (fmt : String := "WEBP") (quality : Int := 80) : Except PyErr ThumbOut := do
  let base ← getImg env d
  let base := autoOrient base
  let items ← thumbItems env base fmt quality sizes
  let ph ← placeholderDataUrl env base 16 1
  pure { items := items, placeholder_data_url := ph }

/-- Source `ocr_text` return dict. -/
structure OcrOut where
  ok : Bool
  text : String
  error : Option String
deriving DecidableEq, Repr

/-- Source `ocr_text`: graceful unavailability result when pytesseract is
absent; recognition failures are caught and reported as data. -/
def ocrText (env : ImgEnv) (d : ImgData) (lang : String := "eng") :
    Except PyErr OcrOut :=
  if ¬ env.hasTess then
    .ok { ok := false, text := "", error := some "pytesseract not installed" }
  else do
    let img ← getImg env d
    let img := autoOrient img
    match env.ocrRun img lang with
    | .ok txt => pure { ok := true, text := txt, error := none }
    | .error e => pure { ok := false, text := "", error := some (pyErrStr e) }

/-- The per-operation response shapes of the `image_ops` entry point. -/
inductive ImgOut where
  | inspectOut (info : ImageInfo) (placeholder_data_url : String)
  | validateOut (v : ValidationOut)
  | transformOut (t : TransformOut)
  | thumbsOut (t : ThumbOut)
  | ocrOut (o : OcrOut)
deriving DecidableEq, Repr

/-- The byte-source resolution block of `image_ops`: a truthy base64
payload (data-URL prefix stripped) takes precedence, otherwise the path is
read. -/
def resolveImageData (env : ImgEnv) (image_b64 path : Option String) :
    Except PyErr PyBytes :=
  if pyTruthyStr image_b64 then
    match stripDataUrl (image_b64.getD "") with
    | .error m => .error (.other m)
    | .ok s => env.b64decode s
  else env.readFile (path.getD "")

/-- Source `image_ops`: resolve the byte source (base64 with optional
data-URL prefix takes precedence, then path; zero truthy sources raise),
then dispatch on the operation name. -/
def imageOps (env : ImgEnv) (operation : String)
    (image_b64 path : Option String)
    (allowedFormats : Option (List String)) (maxMegapixels : Option ℚ)
    (op : Option String) (width height : Option Int) (fmt : Option String)
    (quality : Option Int) (keepAlpha : Bool) (background : Option (List Int))
    (lang : String) : Except PyErr ImgOut := do
  if ¬ pyTruthyStr image_b64 ∧ ¬ pyTruthyStr path then
    Except.error (.valueError "Provide either image_b64 or path")
  else do
    let data ← resolveImageData env image_b64 path
    if operation = "inspect" then do
      let info ← inspectImage env (.bytes data)
      let i ← bytesToImage env data
      let ph ← placeholderDataUrl env i 16 1
      pure (.inspectOut info ph)
    else if operation = "validate" then
      (validateImage env (.bytes data) allowedFormats maxMegapixels).map .validateOut
    else if operation = "transform" then
      if ¬ pyTruthyStr op then
        Except.error (.valueError "transform requires \x27op\x27")
      else do
        let bgTuple : Option (Int × Int × Int) ←
          match background with
          | none => pure none
          | some l =>
            if l.length ≠ 3 then
              Except.error (.valueError "background must be a list of three integers [R,G,B]")
            else pure (some (l.getD 0 0, l.getD 1 0, l.getD 2 0))
        (transformImage env (.bytes data) (op.getD "") width height fmt quality
          keepAlpha bgTuple).map .transformOut
    else if operation = "thumbnails" then
      (thumbnailSet env (.bytes data)).map .thumbsOut
    else if operation = "ocr" then
      (ocrText env (.bytes data) lang).map .ocrOut
    else Except.error (.valueError ("Unknown operation: " ++ operation))

end ImageModel

section VideoModel

/-- A moviepy `VideoFileClip` handle: the attributes the pipeline reads and
the frame reader.  Frames are abstract identifiers. -/
structure MClip where
  w : Int
  h : Int
  duration : Option ℚ
  fps : Option ℚ
  frameAt : ℚ → Except PyErr Nat

/-- One ffprobe JSON stream entry, as the source reads it. -/
structure FfStream where
  width : Option Int
  height : Option Int
  duration : Option String
  rFrameRate : Option String
  codecName : Option String
deriving DecidableEq, Repr

/-- Parsed ffprobe JSON output. -/
structure FfOut where
  streams : List FfStream
deriving DecidableEq, Repr

/-- A file on backing storage: a temp materialization or a caller path. -/
inductive FileRef where
  | temp (n : Nat)
  | real (p : String)
deriving DecidableEq, Repr

/-- The external world of video_handling.py: moviepy, ffprobe (subprocess +
json parse as one fallible step), Python float parsing, Pillow frame
encoding, hashing, base64, the network fetch and the file system. -/
structure VidEnv where
  hasMoviepy : Bool
  pilAvailable : Bool
  clipOpen : FileRef → Except PyErr MClip
  ffprobeRun : FileRef → Except PyErr FfOut
  parseFloat : String → Except PyErr ℚ
  frameEncode : Nat → Except PyErr PyBytes
  md5v : PyBytes → String
  b64v : PyBytes → String
  b64decodeV : String → Except PyErr PyBytes
  fetchUrl : String → Except PyErr PyBytes
  readFileV : String → Except PyErr PyBytes

/-- Source dataclass `VideoInfo` extended with the thumbnail key the
`inspect_video_source` dict carries. -/
structure VideoInfoD where
  width : Option Int
  height : Option Int
  duration : Option ℚ
  fps : Option ℚ
  format : Option String
  size_bytes : Nat
  md5 : String
  thumbnail_data_url : Option String
deriving DecidableEq, Repr

/-- A name not yet present in the temp pool. -/
def freshName (fs : List Nat) : Nat := fs.foldr (fun a b => max a b) 0 + 1

/-- Source `_write_temp_file`: materialize a buffer, returning the new name
and the grown pool. -/
def writeTempFile (fs : List Nat) : Nat × List Nat := (freshName fs, freshName fs :: fs)

/-- `os.unlink` on the temp pool. -/
def pyUnlink (n : Nat) (fs : List Nat) : List Nat := fs.erase n

/-- Source `os.path.splitext(file_path)[1].lstrip(".")` for the file
references this pipeline builds: temp files carry the fixed ".mp4" suffix;
plain paths yield their extension (simple dot-split model). -/
def extNoDot : FileRef → String
  | .temp _ => "mp4"
  | .real p =>
    match pySplitChar p '.' with
    | [] => ""
    | [_] => ""
    | l => lastPart l

/-- Source `_frame_to_data_url`: raises when Pillow is absent, otherwise
encodes the frame as a PNG data URL. -/
def frameToDataUrl (env : VidEnv) (frame : Nat) : Except PyErr String :=
  if ¬ env.pilAvailable then .error (.runtimeError "Pillow required to create thumbnails")
  else (env.frameEncode frame).map (fun b => "data:image/png;base64," ++ env.b64v b)

/-- The five fields the ffprobe strategy computes. -/
structure FfUpdate where
  width : Option Int
  height : Option Int
  duration : Option ℚ
  fps : Option ℚ
  format : Option String
deriving DecidableEq, Repr

/-- The empty dict used when ffprobe reports no stream. -/
def emptyFfStream : FfStream := ⟨none, none, none, none, none⟩

/-- The ffprobe strategy of `inspect_video_source`: run the probe, read the
first stream, parse duration (a raised parse error escapes this strategy)
and the "num/den" frame rate (whose parse and zero-division errors are
swallowed by the inner handler; a malformed unpacking escapes). -/
def ffprobeUpdate (env : VidEnv) (f : FileRef) : Except PyErr FfUpdate := do
  let out ← env.ffprobeRun f
  let stream := match out.streams with | [] => emptyFfStream | s :: _ => s
  let dur : Option ℚ ←
    match stream.duration with
    | some s => if s ≠ "" then (env.parseFloat s).map some else pure none
    | none => pure none
  let fps : Option ℚ ←
    match stream.rFrameRate with
    | some rs =>
      if rs ≠ "" ∧ rs.data.contains '/' then
        match pySplitChar rs '/' with
        | [num, den] =>
            pure (match env.parseFloat num, env.parseFloat den with
                  | .ok n, .ok d => if d = 0 then none else some (n / d)
                  | _, _ => none)
        | _ => Except.error (.valueError "too many values to unpack")
      else pure none
    | none => pure none
  pure { width := stream.width, height := stream.height, duration := dur,
         fps := fps, format := stream.codecName }

/-- The probing body of `inspect_video_source` (the code inside its `try`):
when moviepy is available, open the clip (an open failure escapes — there is
no handler on this branch), read the falsy-guarded attributes and attempt a
representative frame at 0.5s (frame errors are swallowed); otherwise run the
ffprobe strategy, swallowing every failure (best-effort). -/
def probeInfo (env : VidEnv) (f : FileRef) (sizeBytes : Nat) (md5 : String) :
    Except PyErr VideoInfoD :=
  let base : VideoInfoD := ⟨none, none, none, none, none, sizeBytes, md5, none⟩
  if env.hasMoviepy then
    match env.clipOpen f with
    | .error e => .error e
    | .ok clip =>
      let info1 : VideoInfoD :=
        { base with
          width := if clip.w ≠ 0 then some clip.w else none
          height := if clip.h ≠ 0 then some clip.h else none
          duration := clip.duration.bind (fun v => if v ≠ 0 then some v else none)
          fps := clip.fps.bind (fun v => if v ≠ 0 then some v else none)
          format := if extNoDot f ≠ "" then some (extNoDot f) else none }
      let t : ℚ :=
        match clip.duration with
        | some v => if v ≠ 0 ∧ v > 1/2 then 1/2 else 0
        | none => 0
      let thumb : Option String :=
        match clip.frameAt t with
        | .ok fr =>
          match frameToDataUrl env fr with
          | .ok u => some u
          | .error _ => none
        | .error _ => none
      .ok { info1 with thumbnail_data_url := thumb }
  else
    match ffprobeUpdate env f with
    | .error _ => .ok base
    | .ok u =>
      .ok { base with
            width := u.width
            height := u.height
            duration := u.duration
            fps := u.fps
            format := u.format }

/-- Source `inspect_video_source`: byte input is materialized to a temp file
that the `finally` block unconditionally unlinks; path input is read for
size and hash.  The pair threads the temp pool. -/
def inspectVideoSource (env : VidEnv) (path : Option String)
    (data : Option PyBytes) (fs : List Nat) :
    Except PyErr VideoInfoD × List Nat :=
  match data with
  | some d =>
    let name := freshName fs
    let fs1 := name :: fs
    (probeInfo env (.temp name) d.length (env.md5v d), pyUnlink name fs1)
  | none =>
    match path with
    | some p =>
      match env.readFileV p with
      | .error e => (.error e, fs)
      | .ok bytes => (probeInfo env (.real p) bytes.length (env.md5v bytes), fs)
    | none => (.error (.valueError "Provide path or data"), fs)

/-- The duration-violation reason of the video `validate` operation. -/
def durationReasonStr (d md : ℚ) : String :=
  "duration " ++ (pyFloatRepr d ++ ("s > " ++ (pyFloatRepr md ++ "s")))

/-- The resolution-violation reason of the video `validate` operation. -/
def videoMpReasonStr (mp mm : ℚ) : String :=
  "video too large: " ++ (fmtFixed2 mp ++ (" MP > " ++ (pyFloatRepr mm ++ " MP")))

/-- The reason list the video `validate` operation builds: a duration check
guarded by `is not None`, and a megapixel check guarded by the truthiness of
both probed dimensions. -/
def videoValidateReasons (info : VideoInfoD)
    (maxDuration maxMegapixels : Option ℚ) : List String :=
  (match maxDuration, info.duration with
   | some md, some d => if d > md then [durationReasonStr d md] else []
   | _, _ => []) ++
  (match maxMegapixels with
   | some mm =>
     if pyTruthyInt info.width ∧ pyTruthyInt info.height then
       let mp : ℚ := ((info.width.getD 0 * info.height.getD 0 : Int) : ℚ) / 1000000
       if mp > mm then [videoMpReasonStr mp mm] else []
     else []
   | none => [])

/-- The per-operation response shapes of the `video_ops` entry point. -/
inductive VideoOut where
  | infoOut (i : VideoInfoD)
  | validateOut (ok : Bool) (reasons : List String) (info : VideoInfoD)
  | thumbsOut (thumbnail : Option String) (info : VideoInfoD)
  | frameOut (ok : Bool) (thumbnail : Option String) (error : Option String)
deriving DecidableEq, Repr

/-- The body of the `extract_frame` branch (inside its `try`): open the
clip, read the representative frame and encode it; any failure escapes (and
the `finally` still unlinks the temp file); without moviepy a structured
unavailability result is returned. -/
def extractFrameBody (env : VidEnv) (f : FileRef) : Except PyErr VideoOut :=
  if env.hasMoviepy then do
    let clip ← env.clipOpen f
    let t : ℚ :=
      match clip.duration with
      | some v => if v ≠ 0 ∧ v > 1/2 then 1/2 else 0
      | none => 0
    let fr ← clip.frameAt t
    let thumb ← frameToDataUrl env fr
    pure (.frameOut true (some thumb) none)
  else
    .ok (.frameOut false none
      (some "moviepy not installed; install moviepy and ffmpeg to enable frame extraction"))

/-- The `extract_frame` branch of `video_ops`: byte input is materialized
and unconditionally unlinked by the `finally` block. -/
def extractFrame (env : VidEnv) (path : Option String) (data : Option PyBytes)
    (fs : List Nat) : Except PyErr VideoOut × List Nat :=
  match data with
  | some _ =>
    let name := freshName fs
    (extractFrameBody env (.temp name), pyUnlink name (name :: fs))
  | none => (extractFrameBody env (.real (path.getD "")), fs)

/-- The byte-source resolution block of `video_ops`: a truthy base64
payload (data-URL prefix stripped) takes precedence, then a truthy URL is
fetched; otherwise no bytes are resolved (a bare path is handed through to
the operations). -/
def resolveVideoData (env : VidEnv) (video_b64 video_url : Option String) :
    Except PyErr (Option PyBytes) :=
  if pyTruthyStr video_b64 then
    match stripDataUrl (video_b64.getD "") with
    | .error m => .error (.other m)
    | .ok s => (env.b64decodeV s).map some
  else if pyTruthyStr video_url then
    (env.fetchUrl (video_url.getD "")).map some
  else .ok none

/-- Source `video_ops`: reject zero truthy sources, resolve bytes by
precedence (base64, then URL fetch; a bare path is handed through), then
dispatch on the operation name. -/
def videoOps (env : VidEnv) (operation : String)
    (video_b64 video_url path : Option String)
    (maxDuration maxMegapixels : Option ℚ) (fs : List Nat) :
    Except PyErr VideoOut × List Nat :=
  if ¬ (pyTruthyStr video_b64 ∨ pyTruthyStr video_url ∨ pyTruthyStr path) then
    (.error (.valueError "Provide one of: video_b64, video_url, or path"), fs)
  else
    match resolveVideoData env video_b64 video_url with
    | .error e => (.error e, fs)
    | .ok data =>
      if operation = "inspect" then
        ((inspectVideoSource env path data fs).1.map .infoOut,
         (inspectVideoSource env path data fs).2)
      else if operation = "validate" then
        ((inspectVideoSource env path data fs).1.map (fun info =>
           .validateOut (videoValidateReasons info maxDuration maxMegapixels).isEmpty
             (videoValidateReasons info maxDuration maxMegapixels) info),
         (inspectVideoSource env path data fs).2)
      else if operation = "thumbnails" then
        ((inspectVideoSource env path data fs).1.map (fun info =>
           .thumbsOut info.thumbnail_data_url info),
         (inspectVideoSource env path data fs).2)
      else if operation = "extract_frame" then
        extractFrame env path data fs
      else
        (.error (.valueError ("Unknown operation: " ++ operation)), fs)

end VideoModel

section Fixtures

/-- A permissive concrete world for the image pipeline: decoding always
yields `opened`, every library operation succeeds, the luminance grid is
all-zero. -/
def permImgEnv (opened : PILImage) : ImgEnv where
  imgOpen := fun _ => .ok opened
  save := fun _ _ _ _ => .ok [0]
  lumaResize := fun _ n => List.replicate (n * n) 0
  lumaLen := fun _ n => List.length_replicate (n * n) 0
  md5hex := fun _ => "cafebabe"
  b64encode := fun _ => "AAAA"
  b64decode := fun _ => .ok [1]
  fitOp := fun i _ _ => .ok i
  thumbnailOp := fun i _ _ => .ok i
  blurOp := fun i _ => i
  cropOp := fun i _ _ _ _ => .ok i
  newCanvas := fun m w h _ => .ok ⟨w.toNat, h.toNat, m, none, 1, []⟩
  pasteCenter := fun c _ _ _ => .ok c
  readFile := fun _ => .ok [2]
  hasTess := false
  ocrRun := fun _ _ => .error (.runtimeError "no ocr")

/-- The permissive image world with a failing encoder. -/
def failSaveImgEnv (opened : PILImage) : ImgEnv :=
  { permImgEnv opened with save := fun _ _ _ _ => .error (.osError "cannot write") }

/-- A 100 by 100 RGBA test image without container format. -/
def imgSquare : PILImage := ⟨100, 100, "RGBA", none, 1, []⟩

/-- A 2000 by 2000 test image (4 megapixels). -/
def img2000 : PILImage := ⟨2000, 2000, "RGBA", none, 1, []⟩

/-- A 500 by 500 test image (0.25 megapixels). -/
def img500 : PILImage := ⟨500, 500, "RGBA", none, 1, []⟩

/-- What `Image.open` yields on a BMP container: a decoded image whose
format attribute records "BMP". -/
def imgBMPsrc : PILImage := ⟨100, 80, "P", some "BMP", 1, []⟩

/-- A concrete video world with neither moviepy success nor ffprobe: the
probing strategies all fail, everything else succeeds. -/
def vidEnvProbeFail : VidEnv where
  hasMoviepy := false
  pilAvailable := true
  clipOpen := fun _ => .error (.osError "no clip")
  ffprobeRun := fun _ => .error (.osError "ffprobe missing")
  parseFloat := fun _ => .error (.valueError "bad float")
  frameEncode := fun _ => .ok [0]
  md5v := fun _ => "feedface"
  b64v := fun _ => "BBBB"
  b64decodeV := fun _ => .ok [1, 2]
  fetchUrl := fun _ => .ok [3]
  readFileV := fun _ => .ok [4]

/-- The video world with moviepy importable but failing to open the
(corrupt) stream. -/
def vidEnvMoviepyFail : VidEnv :=
  { vidEnvProbeFail with
    hasMoviepy := true
    clipOpen := fun _ => .error (.osError "MoviePy error: failed to read the file") }

/-- Constructor-level success test on `Except`. -/
def exceptOk {ε α : Type} : Except ε α → Bool
  | .ok _ => true
  | .error _ => false

/-- The ImageInfo that inspecting the 2000 by 2000 fixture in the permissive
world produces. -/
def info2000 : ImageInfo :=
  { width := 2000, height := 2000, mode := "RGBA", format := none,
    megapixels := calcMegapixels 2000 2000, md5 := "cafebabe",
    ahash := ahash (permImgEnv img2000) (autoOrient img2000), exif := [] }

/-- The ImageInfo that inspecting the 500 by 500 fixture in the permissive
world produces. -/
def info500 : ImageInfo :=
  { width := 500, height := 500, mode := "RGBA", format := none,
    megapixels := calcMegapixels 500 500, md5 := "cafebabe",
    ahash := ahash (permImgEnv img500) (autoOrient img500), exif := [] }

/-- The ImageInfo that inspecting the BMP fixture byte stream in the
permissive world produces: note the format attribute is gone (None). -/
def infoBMP : ImageInfo :=
  { width := 100, height := 80, mode := "RGBA", format := none,
    megapixels := calcMegapixels 100 80, md5 := "cafebabe",
    ahash := ahash (permImgEnv imgBMPsrc) (autoOrient (convertMode imgBMPsrc "RGBA")),
    exif := [] }

/-- Spec-side description of the perceptual hash value: one bit per cell of
the 8 by 8 luminance grid, set exactly when the cell strictly exceeds the
grid mean, concatenated row-major (cell j weighs 2^(63-j)). -/
def specAhashValue (grid : List Nat) : Nat :=
  ∑ j in Finset.range 64,
    if ((grid.getD j 0 : Nat) : ℚ) > ((grid.sum : Nat) : ℚ) / 64 then 2 ^ (63 - j) else 0

end Fixtures

section ExceptEval

@[simp] theorem exc_pure_eq {E A : Type} (v : A) :
    (pure v : Except E A) = Except.ok v := rfl

@[simp] theorem exc_bind_ok {E A B : Type} (v : A) (cont : A → Except E B) :
    ((Except.ok v : Except E A) >>= cont) = cont v := rfl

@[simp] theorem exc_bind_err {E A B : Type} (er : E) (cont : A → Except E B) :
    ((Except.error er : Except E A) >>= cont) = Except.error er := rfl

@[simp] theorem exc_fmap_eq {E A B : Type} (g : A → B) (res : Except E A) :
    (g <$> res) = Except.map g res := rfl

@[simp] theorem exc_map_ok {E A B : Type} (g : A → B) (v : A) :
    Except.map g (Except.ok v : Except E A) = Except.ok (g v) := rfl

@[simp] theorem exc_map_err {E A B : Type} (g : A → B) (er : E) :
    Except.map g (Except.error er : Except E A) = Except.error er := rfl

end ExceptEval

section HexLemmas

theorem natToHexAux_congr : ∀ (f1 f2 n : Nat), n < f1 → n < f2 →
    natToHexAux f1 n = natToHexAux f2 n := by
  intro f1
  induction f1 with
  | zero => intro f2 n h1 _; omega
  | succ f ih =>
    intro f2 n h1 h2
    cases f2 with
    | zero => omega
    | succ g =>
      simp only [natToHexAux]
      by_cases h : n < 16
      · simp [h]
      · simp only [if_neg h]
        have hdiv : n / 16 < n := Nat.div_lt_self (by omega) (by omega)
        rw [ih g (n / 16) (by omega) (by omega)]

/-- The defining recurrence of `natToHexList`. -/
theorem natToHexList_eq (n : Nat) :
    natToHexList n = if n < 16 then [hexDigitChar n]
      else natToHexList (n / 16) ++ [hexDigitChar (n % 16)] := by
  have hstep : natToHexAux (n + 1) n = if n < 16 then [hexDigitChar n]
      else natToHexAux n (n / 16) ++ [hexDigitChar (n % 16)] := rfl
  by_cases h : n < 16
  · simp only [natToHexList, hstep, if_pos h]
  · simp only [natToHexList, hstep, if_neg h]
    have hdiv : n / 16 < n := Nat.div_lt_self (by omega) (by omega)
    congr 1
    exact natToHexAux_congr n (n / 16 + 1) (n / 16) (by omega) (by omega)

theorem hexDigitChar_val_fin : ∀ i : Fin 16, hexCharVal (hexDigitChar i) = i := by decide

theorem hexCharVal_hexDigitChar (n : Nat) (h : n < 16) :
    hexCharVal (hexDigitChar n) = n := hexDigitChar_val_fin ⟨n, h⟩

theorem hexDigitChar_mem_fin : ∀ i : Fin 16, hexDigitChar i ∈ hexAlphabet := by decide

theorem hexDigitChar_mem_alphabet (k : Nat) (hk : k < 16) :
    hexDigitChar k ∈ hexAlphabet := hexDigitChar_mem_fin ⟨k, hk⟩

theorem natToHexList_chars : ∀ (n : Nat), ∀ c ∈ natToHexList n, c ∈ hexAlphabet := by
  intro n
  induction n using Nat.strong_induction_on with
  | _ n ih =>
    intro c hc
    rw [natToHexList_eq n] at hc
    by_cases h : n < 16
    · rw [if_pos h] at hc
      simp only [List.mem_singleton] at hc
      exact hc ▸ hexDigitChar_mem_alphabet n h
    · rw [if_neg h] at hc
      rcases List.mem_append.mp hc with h1 | h2
      · exact ih (n / 16) (Nat.div_lt_self (by omega) (by omega)) c h1
      · simp only [List.mem_singleton] at h2
        exact h2 ▸ hexDigitChar_mem_alphabet (n % 16) (by omega)

theorem hexValue_fold_natToHexList : ∀ (n : Nat), ∀ (a : Nat),
    (natToHexList n).foldl (fun a c => 16 * a + hexCharVal c) a
      = a * 16 ^ (natToHexList n).length + n := by
  intro n
  induction n using Nat.strong_induction_on with
  | _ n ih =>
    intro a
    rw [natToHexList_eq n]
    by_cases h : n < 16
    · simp only [if_pos h, List.foldl_cons, List.foldl_nil, List.length_singleton,
        hexCharVal_hexDigitChar n h, pow_one]
      ring
    · simp only [if_neg h, List.foldl_append, List.foldl_cons, List.foldl_nil,
        List.length_append, List.length_singleton]
      rw [ih (n / 16) (Nat.div_lt_self (by omega) (by omega)) a]
      rw [hexCharVal_hexDigitChar (n % 16) (by omega)]
      rw [pow_succ]
      have h1 : 16 * (a * 16 ^ (natToHexList (n / 16)).length + n / 16) + n % 16
          = (a * 16 ^ (natToHexList (n / 16)).length) * 16 + (16 * (n / 16) + n % 16) := by
        ring
      rw [h1, Nat.div_add_mod]
      ring

theorem natToHexList_length_le : ∀ (n k : Nat), 1 ≤ k → n < 16 ^ k →
    (natToHexList n).length ≤ k := by
  intro n
  induction n using Nat.strong_induction_on with
  | _ n ih =>
    intro k hk hlt
    rw [natToHexList_eq n]
    by_cases h : n < 16
    · simp only [if_pos h, List.length_singleton]
      omega
    · simp only [if_neg h, List.length_append, List.length_singleton]
      have hk2 : 2 ≤ k := by
        rcases Nat.lt_or_ge k 2 with hc | hc
        · interval_cases k
          · simp only [pow_one] at hlt
            omega
        · exact hc
      have hdiv : n / 16 < 16 ^ (k - 1) := by
        rw [Nat.div_lt_iff_lt_mul (by omega)]
        calc n < 16 ^ k := hlt
          _ = 16 ^ (k - 1) * 16 := by
              rw [← pow_succ]
              congr 1
              omega
      have := ih (n / 16) (Nat.div_lt_self (by omega) (by omega)) (k - 1) (by omega) hdiv
      omega

theorem foldl_hex_replicate_zero (k : Nat) :
    (List.replicate k '0').foldl (fun a c => 16 * a + hexCharVal c) 0 = 0 := by
  induction k with
  | zero => rfl
  | succ m ih =>
    simp only [List.replicate, List.foldl_cons]
    have h0 : (16 * 0 + hexCharVal '0') = 0 := by decide
    rw [h0]
    exact ih

theorem hexValue_pyHexPad (n w : Nat) (hw : 1 ≤ w) (h : n < 16 ^ w) :
    hexValue (pyHexPad n w) = n ∧ (pyHexPad n w).length = w := by
  have hlen := natToHexList_length_le n w hw h
  constructor
  · show (List.replicate (w - (natToHexList n).length) '0' ++ natToHexList n).foldl
      (fun a c => 16 * a + hexCharVal c) 0 = n
    rw [List.foldl_append, foldl_hex_replicate_zero,
      hexValue_fold_natToHexList n 0]
    ring
  · show (List.replicate (w - (natToHexList n).length) '0' ++ natToHexList n).length = w
    rw [List.length_append, List.length_replicate]
    omega

theorem pyHexPad_chars (n w : Nat) : ∀ c ∈ (pyHexPad n w).data, c ∈ hexAlphabet := by
  intro c hc
  have hc2 : c ∈ List.replicate (w - (natToHexList n).length) '0' ++ natToHexList n := hc
  rcases List.mem_append.mp hc2 with h1 | h2
  · have := List.eq_of_mem_replicate h1
    subst this
    decide
  · exact natToHexList_chars n c h2

end HexLemmas

section FoldSumLemmas

theorem foldl_two_sum {α : Type} (g : α → Nat) (x0 : α) :
    ∀ (l : List α) (a : Nat),
      l.foldl (fun acc x => 2 * acc + g x) a
        = a * 2 ^ l.length
          + ∑ j in Finset.range l.length, g (l.getD j x0) * 2 ^ (l.length - 1 - j) := by
  intro l
  induction l with
  | nil => intro a; simp
  | cons c t ih =>
    intro a
    simp only [List.foldl_cons, List.length_cons]
    rw [ih (2 * a + g c), Finset.sum_range_succ']
    simp only [List.getD_cons_succ, List.getD_cons_zero]
    have hexp : ∀ j ∈ Finset.range t.length,
        g (t.getD j x0) * 2 ^ (t.length + 1 - 1 - (j + 1))
          = g (t.getD j x0) * 2 ^ (t.length - 1 - j) := by
      intro j _
      have he : t.length + 1 - 1 - (j + 1) = t.length - 1 - j := by omega
      rw [he]
    rw [Finset.sum_congr rfl hexp]
    have hlast : t.length + 1 - 1 - 0 = t.length := by omega
    rw [hlast, pow_succ]
    ring

theorem foldl_two_sum_lt {α : Type} (g : α → Nat) (x0 : α)
    (hg : ∀ x, g x ≤ 1) (l : List α) :
    l.foldl (fun acc x => 2 * acc + g x) 0 < 2 ^ l.length := by
  rw [foldl_two_sum g x0 l 0, Nat.zero_mul, Nat.zero_add]
  have hsum : ∑ j in Finset.range l.length, g (l.getD j x0) * 2 ^ (l.length - 1 - j)
      ≤ ∑ j in Finset.range l.length, 2 ^ (l.length - 1 - j) := by
    apply Finset.sum_le_sum
    intro j _
    calc g (l.getD j x0) * 2 ^ (l.length - 1 - j)
        ≤ 1 * 2 ^ (l.length - 1 - j) := Nat.mul_le_mul_right _ (hg _)
      _ = 2 ^ (l.length - 1 - j) := Nat.one_mul _
  have hreflect : ∑ j in Finset.range l.length, 2 ^ (l.length - 1 - j)
      = ∑ j in Finset.range l.length, 2 ^ j :=
    Finset.sum_range_reflect (fun j => 2 ^ j) l.length
  have hgeom : ∑ j in Finset.range l.length, 2 ^ j = 2 ^ l.length - 1 := by
    induction l.length with
    | zero => rfl
    | succ m ihm =>
      rw [Finset.sum_range_succ, ihm, pow_succ]
      have : 1 ≤ 2 ^ m := Nat.one_le_two_pow
      omega
  have hpos : 1 ≤ 2 ^ l.length := Nat.one_le_two_pow
  omega

end FoldSumLemmas

section VideoPipelineLemmas

theorem inspectVideoSource_snd (env : VidEnv) (path : Option String)
    (data : Option PyBytes) (fs : List Nat) :
    (inspectVideoSource env path data fs).2 = fs := by
  unfold inspectVideoSource
  cases data with
  | some d =>
    show pyUnlink (freshName fs) (freshName fs :: fs) = fs
    exact List.erase_cons_head _ _
  | none =>
    cases path with
    | some p => cases h : env.readFileV p <;> simp [h]
    | none => rfl

theorem extractFrame_snd (env : VidEnv) (path : Option String)
    (data : Option PyBytes) (fs : List Nat) :
    (extractFrame env path data fs).2 = fs := by
  unfold extractFrame
  cases data with
  | some d =>
    show pyUnlink (freshName fs) (freshName fs :: fs) = fs
    exact List.erase_cons_head _ _
  | none => rfl

theorem probeInfo_no_moviepy_ffprobe_error (env : VidEnv) (f : FileRef)
    (size : Nat) (md5 : String) (hmp : env.hasMoviepy = false)
    (e : PyErr) (hff : env.ffprobeRun f = .error e) :
    probeInfo env f size md5 = .ok ⟨none, none, none, none, none, size, md5, none⟩ := by
  unfold probeInfo ffprobeUpdate
  rw [hmp, hff]
  rfl

theorem probeInfo_no_moviepy_ok (env : VidEnv) (f : FileRef)
    (size : Nat) (md5 : String) (hmp : env.hasMoviepy = false) :
    exceptOk (probeInfo env f size md5) = true := by
  unfold probeInfo
  rw [hmp]
  cases h : ffprobeUpdate env f <;> simp [h, exceptOk]

end VideoPipelineLemmas

section ClaimC3

/-- C3: every temp file materialized onto backing storage during a video
call (byte-buffer inputs) is deleted before the call returns, on every exit
path — success, policy failure or thrown error: the temp pool after
`video_ops` (and after `inspect_video_source`) equals the pool before. -/
theorem claim_C3_temp_pool_preserved :
    (∀ (env : VidEnv) (operation : String) (video_b64 video_url path : Option String)
       (maxDuration maxMegapixels : Option ℚ) (fs : List Nat),
       (videoOps env operation video_b64 video_url path maxDuration maxMegapixels fs).2 = fs)
    ∧ (∀ (env : VidEnv) (path : Option String) (data : Option PyBytes) (fs : List Nat),
       (inspectVideoSource env path data fs).2 = fs) := by
  constructor
  · intro env operation b64 url p md mm fs
    unfold videoOps
    split
    · rfl
    · split
      · rfl
      · split
        · exact inspectVideoSource_snd _ _ _ _
        · split
          · exact inspectVideoSource_snd _ _ _ _
          · split
            · exact inspectVideoSource_snd _ _ _ _
            · split
              · exact extractFrame_snd _ _ _ _
              · rfl
  · exact inspectVideoSource_snd

end ClaimC3

section ClaimC1

/-- C1 counterexample: with the rich media library importable, an open
failure on a corrupt byte stream escapes `inspect_video_source` — the
caller sees the raised error, not a metadata record. -/
theorem claim_C1_counterexample :
    (inspectVideoSource vidEnvMoviepyFail none (some [9, 9, 9]) []).1
      = .error (.osError "MoviePy error: failed to read the file") := rfl

/-- C1 (amended): when the rich media library is unavailable, video inspect
on a byte stream never raises — and when the command-line probe fails as
well, it returns the record with width/height/duration/fps unset and
byte-size and content hash set.  (When the library is available, a failure
opening the clip propagates to the caller; the temp file is still
removed.) -/
theorem claim_C1_inspect_never_raises_without_moviepy (env : VidEnv)
    (d : PyBytes) (fs : List Nat) (hmp : env.hasMoviepy = false) :
    (exceptOk (inspectVideoSource env none (some d) fs).1 = true)
    ∧ (∀ e, env.ffprobeRun (.temp (freshName fs)) = .error e →
        (inspectVideoSource env none (some d) fs).1
          = .ok ⟨none, none, none, none, none, d.length, env.md5v d, none⟩) := by
  have h1 : (inspectVideoSource env none (some d) fs).1
      = probeInfo env (.temp (freshName fs)) d.length (env.md5v d) := rfl
  constructor
  · rw [h1]
    exact probeInfo_no_moviepy_ok env _ _ _ hmp
  · intro e hff
    rw [h1]
    exact probeInfo_no_moviepy_ffprobe_error env _ _ _ hmp e hff

/-- Witness for the amended C1 theorem at a concrete world. -/
theorem claim_C1_witness :
    (inspectVideoSource vidEnvProbeFail none (some [9]) []).1
      = .ok ⟨none, none, none, none, none, 1, "feedface", none⟩ :=
  (claim_C1_inspect_never_raises_without_moviepy vidEnvProbeFail [9] [] rfl).2
    (.osError "ffprobe missing") rfl

end ClaimC1

section ClaimC9

/-- C9: an unknown probed duration produces no duration violation, an
unknown (or zero) probed dimension produces no resolution violation, and an
entirely unprobed video — whatever its true size — validates with `ok =
true` and an empty reason list. -/
theorem claim_C9_unprobed_video_validates_ok :
    (∀ (info : VideoInfoD) (md mm : Option ℚ),
        info.duration = none →
        videoValidateReasons info md mm = videoValidateReasons info none mm)
    ∧ (∀ (info : VideoInfoD) (md mm : Option ℚ),
        pyTruthyInt info.width = false ∨ pyTruthyInt info.height = false →
        videoValidateReasons info md mm = videoValidateReasons info md none)
    ∧ (∀ (env : VidEnv) (s : String) (d : PyBytes) (fs : List Nat)
         (md mm : ℚ) (e : PyErr),
        env.hasMoviepy = false →
        pyStartsWith s "data:" = false →
        s ≠ "" →
        env.b64decodeV s = .ok d →
        env.ffprobeRun (.temp (freshName fs)) = .error e →
        videoOps env "validate" (some s) none none (some md) (some mm) fs
          = (.ok (.validateOut true []
              ⟨none, none, none, none, none, d.length, env.md5v d, none⟩), fs)) := by
  refine ⟨?_, ?_, ?_⟩
  · intro info md mm h
    unfold videoValidateReasons
    rw [h]
    cases md <;> rfl
  · intro info md mm h
    unfold videoValidateReasons
    rcases h with h | h <;> cases mm <;> simp [h]
  · intro env s d fs md mm e hmp hstart hs hb64 hff
    have hts : pyTruthyStr (some s) = true := by simp [pyTruthyStr, hs]
    have hstrip : stripDataUrl s = .ok s := by
      unfold stripDataUrl
      rw [hstart]
      rfl
    have hresolve : resolveVideoData env (some s) none = .ok (some d) := by
      unfold resolveVideoData
      rw [hts]
      simp only [if_true, Option.getD_some, hstrip, hb64, Except.map]
    have hinspect : (inspectVideoSource env none (some d) fs).1
        = .ok ⟨none, none, none, none, none, d.length, env.md5v d, none⟩ :=
      probeInfo_no_moviepy_ffprobe_error env _ _ _ hmp e hff
    have hsnd : (inspectVideoSource env none (some d) fs).2 = fs :=
      inspectVideoSource_snd env none (some d) fs
    unfold videoOps
    rw [hresolve]
    have hguard : ¬ ¬ (pyTruthyStr (some s) = true
        ∨ pyTruthyStr (none : Option String) = true
        ∨ pyTruthyStr (none : Option String) = true) := by
      simp [hts]
    rw [if_neg hguard]
    simp only [hinspect, hsnd, Except.map]
    rfl

/-- Witness for the C9 theorem at a concrete world. -/
theorem claim_C9_witness :
    videoOps vidEnvProbeFail "validate" (some "QUJD") none none (some 10) (some 1) []
      = (.ok (.validateOut true []
          ⟨none, none, none, none, none, 2, "feedface", none⟩), []) :=
  claim_C9_unprobed_video_validates_ok.2.2 vidEnvProbeFail "QUJD" [1, 2] [] 10 1
    (.osError "ffprobe missing") rfl (by decide) (by decide) rfl rfl

end ClaimC9

section ClaimC4

/-- Resolving a truthy video base64 source yields decoded bytes, never a
pass-through. -/
theorem resolveVideoData_b64_some (env : VidEnv) (s : String) (u : Option String)
    (data : Option PyBytes) (hs : pyTruthyStr (some s) = true)
    (hr : resolveVideoData env (some s) u = .ok data) : ∃ d, data = some d := by
  unfold resolveVideoData at hr
  rw [hs] at hr
  simp only [if_true, Option.getD_some] at hr
  rcases hsd : stripDataUrl s with m | s2 <;> rw [hsd] at hr
  · have hr2 : (Except.error (PyErr.other m) : Except PyErr (Option PyBytes))
        = .ok data := hr
    simp at hr2
  · have hr2 : Except.map some (env.b64decodeV s2) = .ok data := hr
    cases hb : env.b64decodeV s2 <;> rw [hb] at hr2 <;> simp [Except.map] at hr2
    exact ⟨_, hr2.symm⟩

/-- Resolving a truthy video URL source (without base64) yields fetched
bytes, never a pass-through. -/
theorem resolveVideoData_url_some (env : VidEnv) (u : String)
    (data : Option PyBytes) (hu : pyTruthyStr (some u) = true)
    (hr : resolveVideoData env none (some u) = .ok data) : ∃ d, data = some d := by
  unfold resolveVideoData at hr
  have hr2 : (if pyTruthyStr (some u) = true
      then Except.map some (env.fetchUrl ((some u).getD ""))
      else Except.ok none) = .ok data := hr
  rw [hu] at hr2
  have hr3 : Except.map some (env.fetchUrl u) = .ok data := hr2
  cases hb : env.fetchUrl u <;> rw [hb] at hr3 <;> simp [Except.map] at hr3
  exact ⟨_, hr3.symm⟩

/-- C4 (amended): each entry point fails with InvalidInput (a ValueError)
exactly when no truthy source is given; ambiguous sources are not rejected —
the entry points pick by precedence (image: base64 over path; video: base64
over URL over path) and ignore the rest. -/
theorem claim_C4_source_resolution :
    (∀ (env : ImgEnv) (operation : String) (b64 p : Option String)
       (A : Option (List String)) (mm : Option ℚ) (op : Option String)
       (w h : Option Int) (fmt : Option String) (q : Option Int) (ka : Bool)
       (bg : Option (List Int)) (lang : String),
       pyTruthyStr b64 = false → pyTruthyStr p = false →
       imageOps env operation b64 p A mm op w h fmt q ka bg lang
         = .error (.valueError "Provide either image_b64 or path"))
    ∧ (∀ (env : ImgEnv) (operation : String) (s p : String)
       (A : Option (List String)) (mm : Option ℚ) (op : Option String)
       (w h : Option Int) (fmt : Option String) (q : Option Int) (ka : Bool)
       (bg : Option (List Int)) (lang : String),
       pyTruthyStr (some s) = true →
       imageOps env operation (some s) (some p) A mm op w h fmt q ka bg lang
         = imageOps env operation (some s) none A mm op w h fmt q ka bg lang)
    ∧ (∀ (env : VidEnv) (operation : String) (b64 url p : Option String)
       (md mm : Option ℚ) (fs : List Nat),
       pyTruthyStr b64 = false → pyTruthyStr url = false → pyTruthyStr p = false →
       videoOps env operation b64 url p md mm fs
         = (.error (.valueError "Provide one of: video_b64, video_url, or path"), fs))
    ∧ (∀ (env : VidEnv) (operation : String) (s : String) (url p : Option String)
       (md mm : Option ℚ) (fs : List Nat),
       pyTruthyStr (some s) = true →
       videoOps env operation (some s) url p md mm fs
         = videoOps env operation (some s) none none md mm fs)
    ∧ (∀ (env : VidEnv) (operation : String) (u p : String)
       (md mm : Option ℚ) (fs : List Nat),
       pyTruthyStr (some u) = true →
       videoOps env operation none (some u) (some p) md mm fs
         = videoOps env operation none (some u) none md mm fs) := by
  refine ⟨?_, ?_, ?_, ?_, ?_⟩
  · intro env operation b64 p A mm op w h fmt q ka bg lang h1 h2
    unfold imageOps
    rw [if_pos (by simp [h1, h2])]
  · intro env operation s p A mm op w h fmt q ka bg lang hs
    unfold imageOps
    have hre : resolveImageData env (some s) (some p)
        = resolveImageData env (some s) none := by
      unfold resolveImageData
      rw [hs]
      simp
    rw [if_neg (by simp [hs]), if_neg (by simp [hs]), hre]
  · intro env operation b64 url p md mm fs h1 h2 h3
    unfold videoOps
    rw [if_pos (by simp [h1, h2, h3])]
  · intro env operation s url p md mm fs hs
    unfold videoOps
    rw [if_neg (by simp [hs]), if_neg (by simp [hs])]
    have hre : resolveVideoData env (some s) url
        = resolveVideoData env (some s) none := by
      unfold resolveVideoData
      rw [hs]
      simp
    rw [hre]
    cases hr : resolveVideoData env (some s) none with
    | error e => rfl
    | ok data =>
      obtain ⟨d, rfl⟩ := resolveVideoData_b64_some env s none data hs hr
      rfl
  · intro env operation u p md mm fs hu
    unfold videoOps
    rw [if_neg (by simp [hu]), if_neg (by simp [hu])]
    cases hr : resolveVideoData env none (some u) with
    | error e => rfl
    | ok data =>
      obtain ⟨d, rfl⟩ := resolveVideoData_url_some env u data hu hr
      rfl

/-- C4 counterexample: supplying both sources at once (ambiguous per the
claim) is not rejected — both entry points succeed, so no InvalidInput (nor
any other error) is raised. -/
theorem claim_C4_counterexample :
    exceptOk (imageOps (permImgEnv imgSquare) "inspect" (some "QUJD")
        (some "also.png") none (some 64) none none none none none true none "eng")
      = true
    ∧ exceptOk (videoOps vidEnvProbeFail "inspect" (some "QUJD") (some "http://h")
        (some "v.mp4") none none []).1 = true := by
  constructor <;> rfl

/-- Witness for the amended C4 theorem at concrete worlds. -/
theorem claim_C4_witness :
    imageOps (permImgEnv imgSquare) "inspect" none none none (some 64) none none
        none none none true none "eng"
      = .error (.valueError "Provide either image_b64 or path")
    ∧ imageOps (permImgEnv imgSquare) "inspect" (some "QUJD") (some "p.png") none
        (some 64) none none none none none true none "eng"
      = imageOps (permImgEnv imgSquare) "inspect" (some "QUJD") none none
        (some 64) none none none none none true none "eng"
    ∧ videoOps vidEnvProbeFail "inspect" none none none none none []
      = (.error (.valueError "Provide one of: video_b64, video_url, or path"), [])
    ∧ videoOps vidEnvProbeFail "inspect" (some "QUJD") (some "u") (some "p") none none []
      = videoOps vidEnvProbeFail "inspect" (some "QUJD") none none none none []
    ∧ videoOps vidEnvProbeFail "inspect" none (some "u") (some "p") none none []
      = videoOps vidEnvProbeFail "inspect" none (some "u") none none none [] :=
  ⟨claim_C4_source_resolution.1 _ "inspect" none none none (some 64) none none
      none none none true none "eng" rfl rfl,
   claim_C4_source_resolution.2.1 _ "inspect" "QUJD" "p.png" none (some 64) none
      none none none none true none "eng" (by decide),
   claim_C4_source_resolution.2.2.1 _ "inspect" none none none none none [] rfl rfl rfl,
   claim_C4_source_resolution.2.2.2.1 _ "inspect" "QUJD" (some "u") (some "p")
      none none [] (by decide),
   claim_C4_source_resolution.2.2.2.2 _ "inspect" "u" "p" none none [] (by decide)⟩

end ClaimC4

section ImagePipelineLemmas

theorem autoOrient_mode (img : PILImage) : (autoOrient img).mode = img.mode := by
  unfold autoOrient
  split <;> rfl

theorem inspectImage_open_error (env : ImgEnv) (b : PyBytes) (e : PyErr)
    (ho : env.imgOpen b = .error e) :
    inspectImage env (.bytes b) = .error e := by
  unfold inspectImage
  simp only [getImg, bytesToImage, ho, exc_map_err, exc_bind_err]

theorem inspectImage_bytes_unfold (env : ImgEnv) (b : PyBytes) (i : PILImage)
    (ho : env.imgOpen b = .ok i) :
    inspectImage env (.bytes b)
      = Except.bind
          (imgToBytes env (autoOrient (convertMode i "RGBA")) (some "PNG") none true)
          (fun raw => Except.ok
            { width := (autoOrient (convertMode i "RGBA")).width
              height := (autoOrient (convertMode i "RGBA")).height
              mode := (autoOrient (convertMode i "RGBA")).mode
              format := safeFormat (autoOrient (convertMode i "RGBA")).format
              megapixels := calcMegapixels (autoOrient (convertMode i "RGBA")).width
                (autoOrient (convertMode i "RGBA")).height
              md5 := env.md5hex raw
              ahash := ahash env (autoOrient (convertMode i "RGBA"))
              exif := (autoOrient (convertMode i "RGBA")).exif }) := by
  unfold inspectImage
  simp only [getImg, bytesToImage, ho, exc_map_ok, exc_bind_ok]
  rfl

theorem inspectImage_img_unfold (env : ImgEnv) (i : PILImage) :
    inspectImage env (.img i)
      = Except.bind (imgToBytes env (autoOrient i) (some "PNG") none true)
          (fun raw => Except.ok
            { width := (autoOrient i).width
              height := (autoOrient i).height
              mode := (autoOrient i).mode
              format := safeFormat (autoOrient i).format
              megapixels := calcMegapixels (autoOrient i).width (autoOrient i).height
              md5 := env.md5hex raw
              ahash := ahash env (autoOrient i)
              exif := (autoOrient i).exif }) := by
  unfold inspectImage
  simp only [getImg, exc_bind_ok]
  rfl

/-- Every successful byte-stream inspection reports RGBA: the decoder
converted the pixel buffer and orientation correction preserves the mode. -/
theorem inspectImage_bytes_mode (env : ImgEnv) (b : PyBytes) (r : ImageInfo)
    (h : inspectImage env (.bytes b) = .ok r) : r.mode = "RGBA" := by
  cases ho : env.imgOpen b with
  | error e =>
    rw [inspectImage_open_error env b e ho] at h
    simp at h
  | ok i =>
    rw [inspectImage_bytes_unfold env b i ho] at h
    cases hsave : imgToBytes env (autoOrient (convertMode i "RGBA")) (some "PNG") none true
      <;> rw [hsave] at h
    · simp only [Except.bind] at h
      exact Except.noConfusion h
    · simp only [Except.bind, Except.ok.injEq] at h
      rw [← h]
      show (autoOrient (convertMode i "RGBA")).mode = "RGBA"
      simp [autoOrient_mode, convertMode]

end ImagePipelineLemmas

section ClaimC10

/-- C10: for every image supplied as a byte stream, the decoder converts the
pixel buffer to RGBA, so the mode field of the ImageInfo returned by inspect
(and embedded in validate) is always "RGBA", whatever the original mode
was. -/
theorem claim_C10_mode_always_rgba :
    (∀ (env : ImgEnv) (b : PyBytes) (r : ImageInfo),
        inspectImage env (.bytes b) = .ok r → r.mode = "RGBA")
    ∧ (∀ (env : ImgEnv) (b : PyBytes) (A : Option (List String)) (mm : Option ℚ)
        (v : ValidationOut),
        validateImage env (.bytes b) A mm = .ok v → v.info.mode = "RGBA") := by
  constructor
  · exact inspectImage_bytes_mode
  · intro env b A mm v h
    unfold validateImage at h
    cases hins : inspectImage env (.bytes b) with
    | error e =>
      rw [hins] at h
      simp only [exc_bind_err] at h
      exact Except.noConfusion h
    | ok info =>
      rw [hins] at h
      simp only [exc_bind_ok, exc_pure_eq, Except.ok.injEq] at h
      have hv : v.info = info := by
        rw [← h]
      rw [hv]
      exact inspectImage_bytes_mode env b info hins

/-- Witness for C10 at a concrete world: a decoded palette-mode BMP still
reports RGBA. -/
theorem claim_C10_witness :
    (inspectImage (permImgEnv imgBMPsrc) (.bytes [7])).map ImageInfo.mode = .ok "RGBA"
    ∧ (validateImage (permImgEnv imgBMPsrc) (.bytes [7]) none (some 64)).map
        (fun v => v.info.mode) = .ok "RGBA" := by
  constructor
  · cases hv : inspectImage (permImgEnv imgBMPsrc) (.bytes [7]) with
    | error e =>
      have hok : exceptOk (inspectImage (permImgEnv imgBMPsrc) (.bytes [7])) = true := rfl
      rw [hv] at hok
      simp [exceptOk] at hok
    | ok r =>
      have := claim_C10_mode_always_rgba.1 (permImgEnv imgBMPsrc) [7] r hv
      simp [Except.map, this]
  · cases hv : validateImage (permImgEnv imgBMPsrc) (.bytes [7]) none (some 64) with
    | error e =>
      have hok : exceptOk (validateImage (permImgEnv imgBMPsrc) (.bytes [7]) none (some 64))
          = true := rfl
      rw [hv] at hok
      simp [exceptOk] at hok
    | ok v =>
      have := claim_C10_mode_always_rgba.2 (permImgEnv imgBMPsrc) [7] none (some 64) v hv
      simp [Except.map, this]

end ClaimC10

section ThumbLemmas

theorem thumbStep_dims (env : ImgEnv) (b : PILImage) (f : String) (q : Int)
    (wh : Nat × Nat) (it : ThumbItem) (h : thumbStep env b f q wh = .ok it) :
    it.width = wh.1 ∧ it.height = wh.2 := by
  unfold thumbStep at h
  cases hf : env.fitOp b (wh.1 : Int) (wh.2 : Int) <;> rw [hf] at h
  · simp only [exc_bind_err] at h
    exact Except.noConfusion h
  · simp only [exc_bind_ok] at h
    rename_i tmp
    cases he : imgToBytes env tmp (some f) (some q) true <;> rw [he] at h
    · simp only [exc_bind_err] at h
      exact Except.noConfusion h
    · simp only [exc_bind_ok, exc_pure_eq, Except.ok.injEq] at h
      rw [← h]
      exact ⟨rfl, rfl⟩

theorem thumbItems_dims (env : ImgEnv) (b : PILImage) (f : String) (q : Int) :
    ∀ (sizes : List (Nat × Nat)) (its : List ThumbItem),
      thumbItems env b f q sizes = .ok its →
      its.map ThumbItem.width = sizes.map Prod.fst
      ∧ its.map ThumbItem.height = sizes.map Prod.snd := by
  intro sizes
  induction sizes with
  | nil =>
    intro its h
    unfold thumbItems at h
    simp only [Except.ok.injEq] at h
    rw [← h]
    exact ⟨rfl, rfl⟩
  | cons wh rest ih =>
    intro its h
    unfold thumbItems at h
    cases hs : thumbStep env b f q wh <;> rw [hs] at h
    · simp only [exc_bind_err] at h
      exact Except.noConfusion h
    · simp only [exc_bind_ok] at h
      rename_i it
      cases hr : thumbItems env b f q rest <;> rw [hr] at h
      · simp only [exc_bind_err] at h
        exact Except.noConfusion h
      · simp only [exc_bind_ok, exc_pure_eq, Except.ok.injEq] at h
        rename_i tail
        obtain ⟨hw, hh⟩ := ih tail hr
        obtain ⟨hw1, hh1⟩ := thumbStep_dims env b f q wh it hs
        rw [← h]
        simp [hw, hh, hw1, hh1]

theorem thumbItems_fail (env : ImgEnv) (b : PILImage) (f : String) (q : Int) :
    ∀ (sizes : List (Nat × Nat)),
      (∃ wh ∈ sizes, exceptOk (thumbStep env b f q wh) = false) →
      exceptOk (thumbItems env b f q sizes) = false := by
  intro sizes
  induction sizes with
  | nil =>
    rintro ⟨wh, hmem, _⟩
    simp at hmem
  | cons x rest ih =>
    rintro ⟨wh, hmem, hfail⟩
    unfold thumbItems
    rcases List.mem_cons.mp hmem with heq | hmem2
    · subst heq
      cases hs : thumbStep env b f q wh
      · rfl
      · rw [hs] at hfail
        simp [exceptOk] at hfail
    · cases hs : thumbStep env b f q x
      · rfl
      · have hrest := ih ⟨wh, hmem2, hfail⟩
        cases hr : thumbItems env b f q rest
        · rfl
        · rw [hr] at hrest
          simp [exceptOk] at hrest

end ThumbLemmas

section ClaimC8

/-- C8: for every decodable image, the thumbnails operation with default
sizes returns exactly 4 items, one per size in {64,128,256,512} in order,
each item reporting exactly the requested width and height (plus the single
placeholder field of the result record); and the result is never partial —
a failing size fails the whole call. -/
theorem claim_C8_thumbnail_set_exact :
    (∀ (env : ImgEnv) (d : ImgData) (r : ThumbOut),
        thumbnailSet env d = .ok r →
        r.items.map ThumbItem.width = [64, 128, 256, 512]
        ∧ r.items.map ThumbItem.height = [64, 128, 256, 512]
        ∧ r.items.length = 4)
    ∧ (∀ (env : ImgEnv) (d : ImgData) (base : PILImage),
        getImg env d = .ok base →
        (∃ wh ∈ defaultThumbSizes,
            exceptOk (thumbStep env (autoOrient base) "WEBP" 80 wh) = false) →
        exceptOk (thumbnailSet env d) = false) := by
  constructor
  · intro env d r h
    unfold thumbnailSet at h
    cases hg : getImg env d <;> rw [hg] at h
    · simp only [exc_bind_err] at h
      exact Except.noConfusion h
    · simp only [exc_bind_ok] at h
      rename_i base
      cases hi : thumbItems env (autoOrient base) "WEBP" 80 defaultThumbSizes
        <;> rw [hi] at h
      · simp only [exc_bind_err, exc_fmap_eq, exc_map_err] at h
        exact Except.noConfusion h
      · simp only [exc_bind_ok, exc_fmap_eq] at h
        rename_i its
        cases hp : placeholderDataUrl env (autoOrient base) 16 1 <;> rw [hp] at h
        · simp only [exc_bind_err, exc_map_err] at h
          exact Except.noConfusion h
        · simp only [exc_bind_ok, exc_map_ok, exc_pure_eq, Except.ok.injEq] at h
          obtain ⟨hw, hh⟩ := thumbItems_dims env (autoOrient base) "WEBP" 80
            defaultThumbSizes its hi
          have hws : defaultThumbSizes.map Prod.fst = [64, 128, 256, 512] := rfl
          have hhs : defaultThumbSizes.map Prod.snd = [64, 128, 256, 512] := rfl
          have hitems : r.items = its := by rw [← h]
          refine ⟨?_, ?_, ?_⟩
          · rw [hitems, hw, hws]
          · rw [hitems, hh, hhs]
          · have := congrArg List.length (hitems ▸ (hw.trans hws))
            simpa using this
  · intro env d base hg hfail
    unfold thumbnailSet
    rw [hg]
    simp only [exc_bind_ok]
    have hrest := thumbItems_fail env (autoOrient base) "WEBP" 80 defaultThumbSizes hfail
    cases hr : thumbItems env (autoOrient base) "WEBP" 80 defaultThumbSizes
    · rfl
    · rw [hr] at hrest
      simp [exceptOk] at hrest

/-- Witness for C8 at concrete worlds: the permissive world yields the four
exact items, the failing-encoder world fails the whole call. -/
theorem claim_C8_witness :
    (thumbnailSet (permImgEnv imgSquare) (.img imgSquare)).map
        (fun r => (r.items.map ThumbItem.width, r.items.map ThumbItem.height,
                   r.items.length))
      = .ok ([64, 128, 256, 512], [64, 128, 256, 512], 4)
    ∧ exceptOk (thumbnailSet (failSaveImgEnv imgSquare) (.img imgSquare)) = false := by
  constructor
  · cases ht : thumbnailSet (permImgEnv imgSquare) (.img imgSquare) with
    | error e =>
      have hok : exceptOk (thumbnailSet (permImgEnv imgSquare) (.img imgSquare))
          = true := rfl
      rw [ht] at hok
      simp [exceptOk] at hok
    | ok r =>
      obtain ⟨hw, hh, hl⟩ := claim_C8_thumbnail_set_exact.1 (permImgEnv imgSquare)
        (.img imgSquare) r ht
      simp [Except.map, hw, hh, hl]
  · exact claim_C8_thumbnail_set_exact.2 (failSaveImgEnv imgSquare) (.img imgSquare)
      imgSquare rfl ⟨(64, 64), by decide, rfl⟩

end ClaimC8

section ClaimC5

/-- C5: the perceptual hash converts to luminance, downsamples to the 8 by 8
grid, takes the grid mean, sets one bit per cell exactly when the cell
strictly exceeds the mean, concatenates row-major (cell j is bit 63-j of the
value) and encodes the 64 bits as a 16-hex-digit zero-padded lowercase
string: the emitted string has length exactly 16, consists of hex digits,
and decodes to the spec-side bit value. -/
theorem claim_C5_ahash_matches_spec (env : ImgEnv) (img : PILImage) :
    (ahash env img).length = 16
    ∧ (∀ c ∈ (ahash env img).data, c ∈ hexAlphabet)
    ∧ hexValue (ahash env img) = specAhashValue (env.lumaResize img 8) := by
  have hlen64 : (env.lumaResize img 8).length = 64 := by
    have := env.lumaLen img 8
    simpa using this
  have harg : ∀ (l : List Nat) (m : ℚ),
      (List.map (fun p => if ((p : Nat) : ℚ) > m then '1' else '0') l).foldl
          (fun a c => 2 * a + (if c = '1' then 1 else 0)) 0
        = l.foldl (fun a p => 2 * a + (if ((p : Nat) : ℚ) > m then 1 else 0)) 0 := by
    intro l m
    rw [List.foldl_map]
    congr 1
    funext a p
    by_cases hc : ((p : Nat) : ℚ) > m <;> simp [hc]
  have hzeta : ahash env img
      = pyHexPad ((List.map (fun p => if ((p : Nat) : ℚ) >
            (((env.lumaResize img 8).sum : Nat) : ℚ)
              / (((env.lumaResize img 8).length : Nat) : ℚ) then '1' else '0')
          (env.lumaResize img 8)).foldl
          (fun a c => 2 * a + (if c = '1' then 1 else 0)) 0) 16 := rfl
  have hah : ahash env img
      = pyHexPad ((env.lumaResize img 8).foldl
          (fun a p => 2 * a +
            (if ((p : Nat) : ℚ) >
                (((env.lumaResize img 8).sum : Nat) : ℚ)
                  / (((env.lumaResize img 8).length : Nat) : ℚ) then 1 else 0)) 0) 16 := by
    rw [hzeta, harg]
  have hg1 : ∀ p : Nat,
      (if ((p : Nat) : ℚ) > (((env.lumaResize img 8).sum : Nat) : ℚ)
          / (((env.lumaResize img 8).length : Nat) : ℚ) then 1 else 0) ≤ 1 := by
    intro p
    split <;> omega
  have hvlt : (env.lumaResize img 8).foldl
      (fun a p => 2 * a +
        (if ((p : Nat) : ℚ) > (((env.lumaResize img 8).sum : Nat) : ℚ)
            / (((env.lumaResize img 8).length : Nat) : ℚ) then 1 else 0)) 0 < 2 ^ 64 := by
    have h := foldl_two_sum_lt
      (fun p => if ((p : Nat) : ℚ) > (((env.lumaResize img 8).sum : Nat) : ℚ)
          / (((env.lumaResize img 8).length : Nat) : ℚ) then 1 else 0) 0 hg1
      (env.lumaResize img 8)
    exact lt_of_lt_of_eq h (by rw [hlen64])
  have hvlt16 : (env.lumaResize img 8).foldl
      (fun a p => 2 * a +
        (if ((p : Nat) : ℚ) > (((env.lumaResize img 8).sum : Nat) : ℚ)
            / (((env.lumaResize img 8).length : Nat) : ℚ) then 1 else 0)) 0 < 16 ^ 16 := by
    have h2 : (16 : Nat) ^ 16 = 2 ^ 64 := by norm_num
    omega
  obtain ⟨hval, hlen16⟩ := hexValue_pyHexPad _ 16 (by omega) hvlt16
  refine ⟨?_, ?_, ?_⟩
  · rw [hah]
    exact hlen16
  · intro c hc
    rw [hah] at hc
    exact pyHexPad_chars _ 16 c hc
  · rw [hah, hval]
    have hsum := foldl_two_sum
      (fun p => if ((p : Nat) : ℚ) > (((env.lumaResize img 8).sum : Nat) : ℚ)
          / (((env.lumaResize img 8).length : Nat) : ℚ) then 1 else 0) 0
      (env.lumaResize img 8) 0
    rw [hsum, hlen64]
    unfold specAhashValue
    rw [Nat.zero_mul, Nat.zero_add]
    apply Finset.sum_congr rfl
    intro j hj
    have hcast : (((64 : Nat)) : ℚ) = (64 : ℚ) := by norm_num
    rw [hcast]
    by_cases hc : (((env.lumaResize img 8).getD j 0 : Nat) : ℚ)
        > (((env.lumaResize img 8).sum : Nat) : ℚ) / (64 : ℚ)
    · simp only [if_pos hc, one_mul]
    · simp [hc]

end ClaimC5

section ValidateLemmas

theorem str_data_append (s t : String) : (s ++ t).data = s.data ++ t.data := rfl

theorem inspectImage_megapixels (env : ImgEnv) (d : ImgData) (r : ImageInfo)
    (h : inspectImage env d = .ok r) :
    r.megapixels = calcMegapixels r.width r.height := by
  cases d with
  | img i =>
    rw [inspectImage_img_unfold env i] at h
    cases hs : imgToBytes env (autoOrient i) (some "PNG") none true <;> rw [hs] at h
    · simp only [Except.bind] at h
      exact Except.noConfusion h
    · simp only [Except.bind, Except.ok.injEq] at h
      rw [← h]
  | bytes b =>
    cases ho : env.imgOpen b with
    | error e =>
      rw [inspectImage_open_error env b e ho] at h
      exact Except.noConfusion h
    | ok i =>
      rw [inspectImage_bytes_unfold env b i ho] at h
      cases hs : imgToBytes env (autoOrient (convertMode i "RGBA")) (some "PNG") none true
        <;> rw [hs] at h
      · simp only [Except.bind] at h
        exact Except.noConfusion h
      · simp only [Except.bind, Except.ok.injEq] at h
        rw [← h]

theorem sizeReason_ne_formatReason (mp mm : ℚ) (f : String) (l : List String) :
    sizeReasonStr mp mm ≠ formatReasonStr f l := by
  intro h
  have hd := congrArg String.data h
  have h1 : (sizeReasonStr mp mm).data
      = 'i' :: ("mage too large: "
          ++ (fmtFixed2 mp ++ (" MP > " ++ (pyFloatRepr mm ++ " MP")))).data := rfl
  have h2 : (formatReasonStr f l).data
      = 'f' :: ("ormat " ++ (f ++ (" not in allowed " ++ pyStrListRepr l))).data := rfl
  rw [h1, h2] at hd
  injection hd with h3 _
  exact absurd h3 (by decide)

end ValidateLemmas

section ClaimC6

/-- C6: validate computes megapixels as width times height over one million
and rejects exactly when that value strictly exceeds the ceiling, with a
reason string containing the formatted megapixel value; concretely, with a
1.0 MP ceiling a 2000 by 2000 image is rejected with reason
"image too large: 4.00 MP > 1.0 MP" and a 500 by 500 image is accepted. -/
theorem claim_C6_megapixel_rule :
    (∀ (env : ImgEnv) (d : ImgData) (A : Option (List String)) (mm : ℚ)
       (r : ValidationOut),
       validateImage env d A (some mm) = .ok r →
       r.info.megapixels = calcMegapixels r.info.width r.info.height
       ∧ (sizeReasonStr r.info.megapixels mm ∈ r.reasons ↔ r.info.megapixels > mm)
       ∧ (fmtFixed2 r.info.megapixels).data <:+: (sizeReasonStr r.info.megapixels mm).data)
    ∧ validateImage (permImgEnv img2000) (.img img2000) none (some 1)
        = .ok ⟨false, ["image too large: 4.00 MP > 1.0 MP"], info2000⟩
    ∧ validateImage (permImgEnv img500) (.img img500) none (some 1)
        = .ok ⟨true, [], info500⟩ := by
  refine ⟨?_, ?_, ?_⟩
  · intro env d A mm r h
    unfold validateImage at h
    cases hins : inspectImage env d with
    | error e =>
      rw [hins] at h
      simp only [exc_bind_err] at h
      exact Except.noConfusion h
    | ok info =>
      rw [hins] at h
      simp only [exc_bind_ok, exc_pure_eq, Except.ok.injEq] at h
      have hinfo : r.info = info := by rw [← h]
      refine ⟨?_, ?_, ?_⟩
      · rw [hinfo]
        exact inspectImage_megapixels env d info hins
      · have hreasons : r.reasons
            = (if pyTruthyStr info.format = true
                  ∧ strUpper (info.format.getD "") ∉
                    List.map strUpper (A.getD ["PNG", "JPEG", "JPG", "WEBP", "GIF"])
               then [formatReasonStr (info.format.getD "")
                 (sortStrings (List.map strUpper
                   (A.getD ["PNG", "JPEG", "JPG", "WEBP", "GIF"])))]
               else [])
              ++ (if info.megapixels > mm
                  then [sizeReasonStr info.megapixels mm] else []) := by
          rw [← h]
        rw [hinfo, hreasons]
        by_cases hc : info.megapixels > mm
        · rw [if_pos hc]
          simp [hc]
        · rw [if_neg hc]
          simp only [List.append_nil]
          constructor
          · intro hmem
            exfalso
            split at hmem
            · simp only [List.mem_singleton] at hmem
              exact sizeReason_ne_formatReason info.megapixels mm _ _ hmem
            · simp at hmem
          · intro hgt
            exact absurd hgt hc
      · rw [hinfo]
        show (fmtFixed2 info.megapixels).data <:+: (sizeReasonStr info.megapixels mm).data
        refine ⟨"image too large: ".data, (" MP > " ++ (pyFloatRepr mm ++ " MP")).data, ?_⟩
        simp [sizeReasonStr, str_data_append, List.append_assoc]
  · have h2 : imgToBytes (permImgEnv img2000) (autoOrient img2000) (some "PNG") none true
        = .ok [0] := rfl
    have h1 := inspectImage_img_unfold (permImgEnv img2000) img2000
    rw [h2] at h1
    simp only [Except.bind] at h1
    unfold validateImage
    rw [h1]
    simp only [exc_bind_ok, exc_pure_eq, Except.ok.injEq]
    have hmp4 : calcMegapixels 2000 2000 = (4 : ℚ) := by
      norm_num [calcMegapixels]
    have hs41 : sizeReasonStr 4 1 = "image too large: 4.00 MP > 1.0 MP" := by
      have hf4 : fmtFixed2 4 = "4.00" := by
        have e1 : ((4 : ℚ) * 100) = 400 := by norm_num
        have e2 : roundHalfEven 400 = 400 := by
          unfold roundHalfEven
          norm_num
        unfold fmtFixed2
        rw [e1, e2]
        decide
      have hp1 : pyFloatRepr 1 = "1.0" := by
        norm_num [pyFloatRepr]
        decide
      unfold sizeReasonStr
      rw [hf4, hp1]
      decide
    have hgoal : (ValidationOut.mk
        ((([] : List String) ++ (if calcMegapixels 2000 2000 > (1 : ℚ)
            then [sizeReasonStr (calcMegapixels 2000 2000) 1] else [])).isEmpty)
        (([] : List String) ++ (if calcMegapixels 2000 2000 > (1 : ℚ)
            then [sizeReasonStr (calcMegapixels 2000 2000) 1] else []))
        info2000)
        = ValidationOut.mk false ["image too large: 4.00 MP > 1.0 MP"] info2000 := by
      have hgt : calcMegapixels 2000 2000 > (1 : ℚ) := by
        norm_num [calcMegapixels]
      rw [if_pos hgt, hmp4, hs41]
      rfl
    exact hgoal
  · have h2 : imgToBytes (permImgEnv img500) (autoOrient img500) (some "PNG") none true
        = .ok [0] := rfl
    have h1 := inspectImage_img_unfold (permImgEnv img500) img500
    rw [h2] at h1
    simp only [Except.bind] at h1
    unfold validateImage
    rw [h1]
    simp only [exc_bind_ok, exc_pure_eq, Except.ok.injEq]
    have hgoal : (ValidationOut.mk
        ((([] : List String) ++ (if calcMegapixels 500 500 > (1 : ℚ)
            then [sizeReasonStr (calcMegapixels 500 500) 1] else [])).isEmpty)
        (([] : List String) ++ (if calcMegapixels 500 500 > (1 : ℚ)
            then [sizeReasonStr (calcMegapixels 500 500) 1] else []))
        info500)
        = ValidationOut.mk true [] info500 := by
      have hngt : ¬ (calcMegapixels 500 500 > (1 : ℚ)) := by
        norm_num [calcMegapixels]
      rw [if_neg hngt]
      rfl
    exact hgoal

/-- Witness for C6: the generic rule applied at the rejected 2000 by 2000
fixture, its validate hypothesis discharged by the concrete conjunct. -/
theorem claim_C6_witness :
    info2000.megapixels = calcMegapixels info2000.width info2000.height
    ∧ (sizeReasonStr info2000.megapixels 1 ∈ ["image too large: 4.00 MP > 1.0 MP"]
        ↔ info2000.megapixels > 1) := by
  have h := claim_C6_megapixel_rule.1 (permImgEnv img2000) (.img img2000) none 1
    ⟨false, ["image too large: 4.00 MP > 1.0 MP"], info2000⟩
    claim_C6_megapixel_rule.2.1
  exact ⟨h.1, h.2.1⟩

end ClaimC6

section ClaimC2

/-- C2 (code bug): a byte stream whose container format is outside the
allow-list (BMP) still validates with ok = true and an empty reason list:
the decoder's RGBA conversion produces an image whose format attribute is
None, so the guarded format check of validate never fires for byte input —
contradicting the documented "format not allowed" reason. -/
theorem claim_C2_format_check_unreachable :
    validateImage (permImgEnv imgBMPsrc) (.bytes [7]) none (some 64)
      = .ok ⟨true, [], infoBMP⟩
    ∧ infoBMP.format = none := by
  constructor
  · have h1 := inspectImage_bytes_unfold (permImgEnv imgBMPsrc) [7] imgBMPsrc rfl
    have h2 : imgToBytes (permImgEnv imgBMPsrc)
        (autoOrient (convertMode imgBMPsrc "RGBA")) (some "PNG") none true
        = .ok [0] := rfl
    rw [h2] at h1
    simp only [Except.bind] at h1
    unfold validateImage
    rw [h1]
    simp only [exc_bind_ok, exc_pure_eq, Except.ok.injEq]
    have hgoal : (ValidationOut.mk
        ((([] : List String) ++ (if calcMegapixels 100 80 > (64 : ℚ)
            then [sizeReasonStr (calcMegapixels 100 80) 64] else [])).isEmpty)
        (([] : List String) ++ (if calcMegapixels 100 80 > (64 : ℚ)
            then [sizeReasonStr (calcMegapixels 100 80) 64] else []))
        infoBMP)
        = ValidationOut.mk true [] infoBMP := by
      have hngt : ¬ (calcMegapixels 100 80 > (64 : ℚ)) := by
        norm_num [calcMegapixels]
      rw [if_neg hngt]
      rfl
    exact hgoal
  · rfl

end ClaimC2

section ClaimC7

/-- C7 (amended): for contain-resize, cover-resize and center-crop, width
and height are required and must be truthy — None or 0 fails with
InvalidInput — and center-crop fails with InvalidInput when the requested
box exceeds the (oriented) source in either axis.  Strict positivity is NOT
enforced: negative dimensions pass the guard and are handed to the imaging
library. -/
theorem claim_C7_dimension_validation :
    (∀ (env : ImgEnv) (i : PILImage) (op : String) (w h : Option Int)
       (fmt : Option String) (q : Option Int) (ka : Bool)
       (bg : Option (Int × Int × Int)),
       (op = "resize_contain" ∨ op = "resize_cover" ∨ op = "crop_center") →
       (pyTruthyInt w = false ∨ pyTruthyInt h = false) →
       transformImage env (.img i) op w h fmt q ka bg
         = .error (.valueError "width and height are required for this op"))
    ∧ (∀ (env : ImgEnv) (i : PILImage) (wv hv : Int)
       (fmt : Option String) (q : Option Int) (ka : Bool)
       (bg : Option (Int × Int × Int)),
       wv ≠ 0 → hv ≠ 0 →
       (wv > ((autoOrient i).width : Int) ∨ hv > ((autoOrient i).height : Int)) →
       transformImage env (.img i) "crop_center" (some wv) (some hv) fmt q ka bg
         = .error (.valueError "crop size larger than image")) := by
  constructor
  · intro env i op w h fmt q ka bg hop htr
    unfold transformImage
    simp only [getImg, exc_bind_ok]
    rw [if_pos hop]
    rw [if_pos (show (¬ pyTruthyInt w = true ∨ ¬ pyTruthyInt h = true) from by
      rcases htr with h1 | h1 <;> simp [h1])]
    simp only [exc_bind_err]
  · intro env i wv hv fmt q ka bg hw0 hh0 hbound
    unfold transformImage
    simp only [getImg, exc_bind_ok, Option.getD_some]
    rw [if_neg (show ¬ ("crop_center" = "strip_metadata") from by decide)]
    rw [if_pos (show ("crop_center" = "resize_contain" ∨ "crop_center" = "resize_cover"
        ∨ True) from Or.inr (Or.inr trivial))]
    rw [if_neg (show ¬ (¬ pyTruthyInt (some wv) = true ∨ ¬ pyTruthyInt (some hv) = true)
      from by simp [pyTruthyInt, hw0, hh0])]
    rw [if_neg (show ¬ ("crop_center" = "resize_contain") from by decide)]
    rw [if_neg (show ¬ ("crop_center" = "resize_cover") from by decide)]
    rw [if_pos hbound]
    simp only [exc_bind_err]

/-- C7 counterexample: a negative height passes the dimension guard of
contain-resize; with a permissively modelled imaging library (which matches
Pillow, whose thumbnail silently clamps the aspect computation in this
case) the transform succeeds instead of failing with InvalidInput. -/
theorem claim_C7_counterexample :
    exceptOk (transformImage (permImgEnv imgSquare) (.img imgSquare) "resize_contain"
        (some 10) (some (-5)) none none true none) = true := rfl

/-- Witness for the amended C7 theorem at concrete inputs. -/
theorem claim_C7_witness :
    transformImage (permImgEnv imgSquare) (.img imgSquare) "crop_center" none (some 5)
        none none true none
      = .error (.valueError "width and height are required for this op")
    ∧ transformImage (permImgEnv imgSquare) (.img imgSquare) "crop_center" (some 200)
        (some 5) none none true none
      = .error (.valueError "crop size larger than image") :=
  ⟨claim_C7_dimension_validation.1 (permImgEnv imgSquare) imgSquare "crop_center"
      none (some 5) none none true none (Or.inr (Or.inr rfl)) (Or.inl rfl),
   claim_C7_dimension_validation.2 (permImgEnv imgSquare) imgSquare 200 5
      none none true none (by decide) (by decide) (Or.inl (by decide))⟩

end ClaimC7
